import Mathlib

/-!
# Verification of the plAIgiarized Writing-Progress & Anomaly Detection Engine

Shallow embedding of the engine's Python source into Lean 4, together with
theorems checking the specification's claims C1-C10 against the code.
Python `float` values are
modelled as exact rationals (`ℚ`), Python exceptions as an explicit error type
threaded through `Except`, and Python `dict`s (whose iteration order is
insertion order) as association lists.  Functions of the repository that are
only referenced but whose bodies are absent from the sources (for example the
detection service's `_calculate_percentile`, elided behind a
"rest of the helper methods stay the same" comment) are taken as parameters,
so every theorem quantifies over all possible behaviours of the missing code.
-/

namespace PlAIgiarized

/-- Python exceptions that the embedded code can raise. -/
inductive PyErr : Type where
  | keyError (key : String)
  | zeroDivisionError
  | attributeError (attr : String)
  | valueError (msg : String)
  deriving DecidableEq, Repr

/-- A Python `dict` keyed by strings, in insertion order. -/
abbrev Dict (α : Type) : Type := List (String × α)

/-- `d[k]` as a partial lookup: first binding of `k` in the dict. -/
def dlookup {α : Type} : Dict α → String → Option α
  | [], _ => none
  | (k, v) :: rest, key => if k = key then some v else dlookup rest key

/-- `d[k]` with Python semantics: a missing key raises `KeyError`. -/
def dget {α : Type} (d : Dict α) (key : String) : Except PyErr α :=
  match dlookup d key with
  | some v => Except.ok v
  | none => Except.error (PyErr.keyError key)

/-- The keys of a dict, in order. -/
def dkeys {α : Type} (d : Dict α) : List String := d.map Prod.fst

/-- Character list core of `str.replace("_change", "")`: delete every
occurrence of the substring `_change`, scanning left to right. -/
def replChangeAux : List Char → List Char
  | '_' :: 'c' :: 'h' :: 'a' :: 'n' :: 'g' :: 'e' :: rest => replChangeAux rest
  | c :: rest => c :: replChangeAux rest
  | [] => []

/-- Python `metric.replace("_change", "")` as used by the realism evaluator. -/
def removeChange (s : String) : String := ⟨replChangeAux s.data⟩

/-- Python `str.strip()`: drop whitespace from both ends. -/
def pyStrip (s : String) : String :=
  ⟨((s.data.dropWhile Char.isWhitespace).reverse.dropWhile Char.isWhitespace).reverse⟩

section DetectionService
/-!
## `plAIgiarized/detection/service.py` — `DetectionService`

The realistic-improvement threshold tables (`__init__`, lines 14–37) and the
methods `compare_essays`, `_calculate_improvements`,
`_evaluate_improvement_realism` and `_extract_style_metrics`.
-/

/-- `improvement_thresholds["suspicious"]` (lines 30–36). -/
def suspiciousThresholds : Dict ℚ :=
  [("percentile_change", 30), ("grade_level_change", 2), ("vocab_growth", 30),
   ("complexity_growth", 30), ("style_improvement", 30)]

/-- `improvement_thresholds["high"]` (lines 23–29). -/
def highThresholds : Dict ℚ :=
  [("percentile_change", 25), ("grade_level_change", 3/2), ("vocab_growth", 25),
   ("complexity_growth", 25), ("style_improvement", 25)]

/-- `improvement_thresholds["average"]` (lines 16–22). -/
def averageThresholds : Dict ℚ :=
  [("percentile_change", 10), ("grade_level_change", 1), ("vocab_growth", 10),
   ("complexity_growth", 10), ("style_improvement", 10)]

/-- `_calculate_improvements` (lines 67–76).  Iterates the baseline metric
dict; for metrics with a positive baseline value it stores
`((submitted[m] - baseline[m]) / baseline[m]) * 100`, divided by `time_span`
only when `time_span > 0`, under the key `m ++ "_change"`.  `submitted[m]`
can raise `KeyError`. -/
def calcImprovements : Dict ℚ → Dict ℚ → ℚ → Except PyErr (Dict ℚ)
  | [], _, _ => Except.ok []
  | (m, bv) :: rest, submitted, timeSpan =>
    if 0 < bv then
      match dlookup submitted m with
      | none => Except.error (PyErr.keyError m)
      | some sv =>
        let change : ℚ := (sv - bv) / bv * 100
        let yearly : ℚ := if 0 < timeSpan then change / timeSpan else change
        match calcImprovements rest submitted timeSpan with
        | Except.ok imps => Except.ok ((m ++ "_change", yearly) :: imps)
        | Except.error e => Except.error e
    else
      calcImprovements rest submitted timeSpan

/-- The scoring loop of `_evaluate_improvement_realism` (lines 83–89):
accumulates 1 per metric above its `suspicious` threshold and 1/2 per metric
above the `high` threshold; the table lookups use
`metric.replace("_change", "")` and raise `KeyError` when absent. -/
def realismLoop : Dict ℚ → ℚ → Except PyErr ℚ
  | [], acc => Except.ok acc
  | (m, v) :: rest, acc =>
    let key := removeChange m
    match dlookup suspiciousThresholds key with
    | none => Except.error (PyErr.keyError key)
    | some st =>
      if st < v then realismLoop rest (acc + 1)
      else
        match dlookup highThresholds key with
        | none => Except.error (PyErr.keyError key)
        | some ht =>
          if ht < v then realismLoop rest (acc + 1/2) else realismLoop rest acc

/-- `_evaluate_improvement_realism` (lines 78–93): runs the scoring loop, then
divides by `len(improvements)` (raising `ZeroDivisionError` when the dict is
empty) and clamps the ratio into [0,1]. -/
def evaluateImprovementRealism (improvements : Dict ℚ) : Except PyErr ℚ :=
  match realismLoop improvements 0 with
  | Except.error e => Except.error e
  | Except.ok count =>
    if improvements.length = 0 then Except.error PyErr.zeroDivisionError
    else Except.ok (min (max (count / improvements.length) 0) 1)

/-!
### Tokenization

`_extract_style_metrics` tokenizes with `re.findall(r'\w+', content.lower())`
and `re.split(r'[.!?]+', content)` followed by `strip()` and a non-empty
filter.  We split on every separator character and filter out the empty
segments afterwards, which composes to the same result as splitting on
maximal separator runs.  `\w` is modelled with its ASCII semantics
(alphanumeric or underscore).
-/

/-- Split a character list at every character satisfying `p`; the segments
between separators are returned in order (possibly empty). -/
def splitSegs (p : Char → Bool) : List Char → List (List Char)
  | [] => [[]]
  | c :: rest =>
    match splitSegs p rest with
    | [] => [[]]
    | seg :: segs => if p c then [] :: seg :: segs else (c :: seg) :: segs

/-- `re.findall(r'\w+', content.lower())`. -/
def wordTokens (content : String) : List String :=
  ((splitSegs (fun c => ¬ (c.isAlphanum ∨ c = '_'))
      (content.data.map Char.toLower)).filter (· ≠ [])).map (fun l => ⟨l⟩)

/-- `[s.strip() for s in re.split(r'[.!?]+', content) if s.strip()]`. -/
def sentenceSegs (content : String) : List String :=
  ((splitSegs (fun c => c = '.' ∨ c = '!' ∨ c = '?') content.data).map
    (fun l => pyStrip ⟨l⟩)).filter (· ≠ "")

/-- Python `s.split()`: split on whitespace runs, dropping empty pieces. -/
def wsTokens (s : String) : List String :=
  ((splitSegs (fun c => c.isWhitespace) s.data).filter (· ≠ [])).map (fun l => ⟨l⟩)

/-- The fallback metric dict returned by `_extract_style_metrics`'s
`except` clause (lines 110–116). -/
def extractDefaults : Dict ℚ :=
  [("percentile", 50), ("grade_level", 8), ("vocab", 100),
   ("complexity", 15), ("style", 5)]

/-- The `try` body of `_extract_style_metrics` (lines 98–107).  The helper
methods `_calculate_percentile`, `_calculate_grade_level` and
`_calculate_style_score` are absent from the source file (elided behind the
"rest of the helper methods stay the same" comment), so they are taken as
parameters `pf`, `gf`, `sf`; in the repository as shipped each of these
attribute accesses raises `AttributeError`.  The dict-literal entries are
evaluated in order; `complexity` divides by `len(sentences)`. -/
def extractStyleMetricsInner (pf gf sf : String → Except PyErr ℚ)
    (content : String) : Except PyErr (Dict ℚ) := do
  let words := wordTokens content
  let sentences := sentenceSegs content
  let p ← pf content
  let g ← gf content
  let vocab : ℚ := (words.dedup.length : ℚ)
  let complexity ←
    (if sentences.length = 0 then Except.error PyErr.zeroDivisionError
     else Except.ok
       ((((sentences.map (fun s => ((wsTokens s).length : ℚ))).sum) /
         (sentences.length : ℚ)) : ℚ))
  let st ← sf content
  Except.ok [("percentile", p), ("grade_level", g), ("vocab", vocab),
             ("complexity", complexity), ("style", st)]

/-- `_extract_style_metrics` (lines 95–116): the `try` body with every
exception recovered into the fixed default metric dict. -/
def extractStyleMetrics (pf gf sf : String → Except PyErr ℚ)
    (content : String) : Dict ℚ :=
  match extractStyleMetricsInner pf gf sf content with
  | Except.ok d => d
  | Except.error _ => extractDefaults

/-- An essay as `compare_essays` consumes it: its text and its creation
timestamp, kept at the day granularity used by
`(submitted.created_at - baseline.created_at).days`. -/
structure Essay where
  content : String
  createdAtDays : ℤ
  deriving DecidableEq, Repr

/-- The result dict of `compare_essays`.  The successful branch carries the
`improvements` dict; the `except` fallback (lines 62–65) does not. -/
structure CompareResult where
  similarityScore : ℚ
  aiProbability : ℚ
  improvements : Option (Dict ℚ)
  deriving DecidableEq, Repr

/-- The `try` body of `compare_essays` (lines 41–59): time difference in
years, metric extraction for both essays, improvement calculation, realism
evaluation, and finally the similarity score (`_calculate_similarity` is also
missing from the source and is the parameter `simF`; it is evaluated after
`ai_probability`, inside the returned dict literal). -/
def compareEssaysInner (pf gf sf : String → Except PyErr ℚ)
    (simF : Dict ℚ → Dict ℚ → Except PyErr ℚ)
    (baseline submitted : Essay) : Except PyErr CompareResult := do
  let timeDiff : ℚ := ((submitted.createdAtDays - baseline.createdAtDays : ℤ) : ℚ) / 365
  let baselineMetrics := extractStyleMetrics pf gf sf baseline.content
  let submittedMetrics := extractStyleMetrics pf gf sf submitted.content
  let improvements ← calcImprovements baselineMetrics submittedMetrics timeDiff
  let aiProbability ← evaluateImprovementRealism improvements
  let similarity ← simF baselineMetrics submittedMetrics
  Except.ok ⟨similarity, aiProbability, some improvements⟩

/-- `compare_essays` (lines 39–65): the `try` body with every exception
recovered into the fixed fallback
`{"similarity_score": 0.75, "ai_probability": 0.25}`. -/
def compareEssays (pf gf sf : String → Except PyErr ℚ)
    (simF : Dict ℚ → Dict ℚ → Except PyErr ℚ)
    (baseline submitted : Essay) : CompareResult :=
  match compareEssaysInner pf gf sf simF baseline submitted with
  | Except.ok r => r
  | Except.error _ => ⟨3/4, 1/4, none⟩

end DetectionService

section AnalysisService
/-!
## `plAIgiarized/analysis/service.py` — `AnalysisService`

Content validation, `analyze_text`'s error handling, and the two readability
routines.  NLTK's `word_tokenize`/`sent_tokenize` are third-party library
calls, so the readability routines are embedded as functions of the token
lists they produce.  Exact decimal literals stand in for the Python float
literals (`0.39 = 39/100`, `11.8 = 59/5`, `15.59 = 1559/100`). -/

/-- Floor of a rational, computably: the denominator is positive, so integer
division of the numerator by it (Euclidean) is exactly the floor. -/
def ratFloorZ (q : ℚ) : ℤ := q.num / (q.den : ℤ)

/-- Round half to even, as Python's `round` does on exact values. -/
def roundHalfEven (q : ℚ) : ℤ :=
  let f := ratFloorZ q
  let frac := q - f
  if frac < 1/2 then f
  else if 1/2 < frac then f + 1
  else if f % 2 = 0 then f else f + 1

/-- Python `round(q, ndigits)` on an exact rational. -/
def pyRound (ndigits : ℕ) (q : ℚ) : ℚ :=
  ((roundHalfEven (q * 10 ^ ndigits) : ℤ) : ℚ) / 10 ^ ndigits

/-- `settings["min_words"]` (line 51) — compared against a character count. -/
def analysisMinWords : ℕ := 100

/-- `settings["max_words"]` (line 52) — compared against a character count. -/
def analysisMaxWords : ℕ := 10000

/-- `_validate_content` (lines 425–429): the length of the *stripped text in
characters* must lie between `min_words` and `max_words`. -/
def validateContent (content : String) : Bool :=
  analysisMinWords ≤ (pyStrip content).length ∧
    (pyStrip content).length ≤ analysisMaxWords

/-- `str(e)` for the embedded exceptions, as used by `analyze_text`'s
`except` clause. -/
def pyErrMsg : PyErr → String
  | PyErr.keyError k => "'" ++ k ++ "'"
  | PyErr.zeroDivisionError => "division by zero"
  | PyErr.attributeError a => a
  | PyErr.valueError m => m

/-- Outcome of `analyze_text`: either the analysis dict or the `except`
clause's `{"error": str(e)}` dict.  There is no third possibility — the
method lets no exception escape. -/
inductive AnalyzeOutcome (α : Type) where
  | ok (parts : α)
  | errorDict (msg : String)
  deriving DecidableEq, Repr

/-- The `try` body of `analyze_text` (lines 68–77): validation failure raises
`ValueError("Invalid content length")`; otherwise the four sub-analyses run
(each is internally guarded and cannot raise, so they are abstracted as
`sub`). -/
def analyzeTextInner {α : Type} (sub : String → α) (text : String) :
    Except PyErr α :=
  if validateContent text then Except.ok (sub text)
  else Except.error (PyErr.valueError "Invalid content length")

/-- `analyze_text` (lines 66–80): the `try` body with every exception
recovered into `{"error": str(e)}`. -/
def analyzeText {α : Type} (sub : String → α) (text : String) :
    AnalyzeOutcome α :=
  match analyzeTextInner sub text with
  | Except.ok p => AnalyzeOutcome.ok p
  | Except.error e => AnalyzeOutcome.errorDict (pyErrMsg e)

/-- Count the maximal runs of characters satisfying `vowel`, tracking whether
the previous character was a vowel — the loop of `_count_syllables`. -/
def vowelRunStarts (vowel : Char → Bool) : List Char → Bool → ℤ
  | [], _ => 0
  | c :: rest, onVowel =>
    (if vowel c ∧ ¬ onVowel then 1 else 0) + vowelRunStarts vowel rest (vowel c)

/-- The vowel set `"aeiouy"` of `_count_syllables`. -/
def isVowelY (c : Char) : Bool :=
  c = 'a' ∨ c = 'e' ∨ c = 'i' ∨ c = 'o' ∨ c = 'u' ∨ c = 'y'

/-- The vowel set of the regex `[aeiou]+` in `_calculate_avg_syllables`. -/
def isVowelNoY (c : Char) : Bool :=
  c = 'a' ∨ c = 'e' ∨ c = 'i' ∨ c = 'o' ∨ c = 'u'

/-- Python `str.strip("0123456789")`: drop digits from both ends. -/
def stripDigits (l : List Char) : List Char :=
  ((l.dropWhile Char.isDigit).reverse.dropWhile Char.isDigit).reverse

/-- `_count_syllables` (lines 452–472): vowel-run count over the lowered,
digit-stripped word, minus one for a trailing `e`, plus one for a trailing
`le` after a consonant in words longer than two characters, floored at 1. -/
def countSyllables (word : String) : ℤ :=
  let w := stripDigits (word.data.map Char.toLower)
  let rw := w.reverse
  let base := vowelRunStarts isVowelY w false
  let c1 := if rw.head? = some 'e' then base - 1 else base
  let c2 :=
    if rw.take 2 = ['e', 'l'] ∧ 2 < w.length ∧
        ((match rw.get? 2 with
          | some c => ! isVowelY c
          | none => false) = true) then
      c1 + 1
    else c1
  if c2 = 0 then 1 else c2

/-- Result of `_calculate_readability`: the guarded empty-input branch
returns `{"error": "No content to analyze"}`, otherwise the three rounded
metrics. -/
inductive ReadabilityResult where
  | errorDict (msg : String)
  | ok (gradeLevel avgSyllablesPerWord avgWordsPerSentence : ℚ)
  deriving DecidableEq, Repr

/-- `_calculate_readability` (lines 384–408): Flesch–Kincaid analogue with
the grade level clamped into [0,12] before rounding.  `words` and
`sentences` are the NLTK token lists. -/
def calcReadability (words sentences : List String) : ReadabilityResult :=
  if words = [] ∨ sentences = [] then
    ReadabilityResult.errorDict "No content to analyze"
  else
    let syllables : ℚ := (((words.map countSyllables).sum : ℤ) : ℚ)
    let wordsPerSentence : ℚ := (words.length : ℚ) / (sentences.length : ℚ)
    let syllablesPerWord : ℚ := syllables / (words.length : ℚ)
    let gradeLevel : ℚ :=
      39/100 * wordsPerSentence + 59/5 * syllablesPerWord - 1559/100
    ReadabilityResult.ok (pyRound 1 (max 0 (min gradeLevel 12)))
      (pyRound 2 syllablesPerWord) (pyRound 2 wordsPerSentence)

/-- Python `str.isalnum()`: non-empty and all characters alphanumeric. -/
def pyIsAlnum (w : String) : Bool := w.data ≠ [] ∧ w.data.all Char.isAlphanum

/-- `_calculate_avg_syllables` (lines 588–598): sum of `[aeiou]+` run counts
over the alphanumeric words, divided by the number of *all* words. -/
def calcAvgSyllables (words : List String) : ℚ :=
  if words = [] then 0
  else
    (((words.filter pyIsAlnum).map
        (fun w => vowelRunStarts isVowelNoY (w.data.map Char.toLower) false)).sum : ℤ) /
      (words.length : ℚ)

/-- `_analyze_readability` (lines 562–586): returns
`{"score": 0.0, "grade_level": 0.0}` on empty input, and otherwise the
*unclamped* Flesch–Kincaid grade level, rounded. -/
def analyzeReadability (words sentences : List String) : Dict ℚ :=
  if words = [] ∨ sentences = [] then [("score", 0), ("grade_level", 0)]
  else
    let avgWordsPerSentence : ℚ := (words.length : ℚ) / (sentences.length : ℚ)
    let avgSyllablesPerWord : ℚ := calcAvgSyllables words
    let gradeLevel : ℚ :=
      39/100 * avgWordsPerSentence + 59/5 * avgSyllablesPerWord - 1559/100
    [("score", pyRound 2 gradeLevel), ("grade_level", pyRound 1 gradeLevel),
     ("avg_words_per_sentence", pyRound 2 avgWordsPerSentence),
     ("avg_syllables_per_word", pyRound 2 avgSyllablesPerWord)]

end AnalysisService

section ProgressService
/-!
## `plAIgiarized/progress/service.py` — `ProgressService`
-/

/-- Python float division: a zero denominator raises `ZeroDivisionError`. -/
def pyDiv (a b : ℚ) : Except PyErr ℚ :=
  if b = 0 then Except.error PyErr.zeroDivisionError else Except.ok (a / b)

/-- An essay as the progress service consumes it: creation day and the
attached metric dict. -/
structure PEssay where
  createdAtDays : ℤ
  metrics : Dict ℚ
  deriving DecidableEq, Repr

/-- `_calculate_overall_improvement` (lines 70–89): fewer than two essays
yield `{}`; otherwise the four improvement entries are computed between the
first and last essay, each expression evaluated left to right with Python's
`KeyError`/`ZeroDivisionError` behaviour.  `writing_level` divides the
absolute grade-level change by the time span; the other three divide the
relative change times 100 by the time span. -/
def calcOverallImprovement (essays : List PEssay) : Except PyErr (Dict ℚ) :=
  if essays.length < 2 then Except.ok []
  else
    match essays, essays.getLast? with
    | first :: _, some last => do
      let timeSpan : ℚ := ((last.createdAtDays - first.createdAtDays : ℤ) : ℚ) / 365
      let glLast ← dget last.metrics "grade_level"
      let glFirst ← dget first.metrics "grade_level"
      let writingLevel ← pyDiv (glLast - glFirst) timeSpan
      let vsLast ← dget last.metrics "vocabulary_size"
      let vsFirst ← dget first.metrics "vocabulary_size"
      let vsRel ← pyDiv (vsLast - vsFirst) vsFirst
      let vocabulary ← pyDiv (vsRel * 100) timeSpan
      let scLast ← dget last.metrics "sentence_complexity"
      let scFirst ← dget first.metrics "sentence_complexity"
      let scRel ← pyDiv (scLast - scFirst) scFirst
      let complexity ← pyDiv (scRel * 100) timeSpan
      let sfLast ← dget last.metrics "style_fingerprint"
      let sfFirst ← dget first.metrics "style_fingerprint"
      let sfRel ← pyDiv (sfLast - sfFirst) sfFirst
      let style ← pyDiv (sfRel * 100) timeSpan
      Except.ok [("writing_level", writingLevel), ("vocabulary", vocabulary),
                 ("complexity", complexity), ("style", style)]
    | _, _ => Except.ok []

end ProgressService

section Regression
/-!
## Linear-regression helpers

`scipy.stats.linregress` and `np.polyfit(x, values, 1)` over
`x = np.arange(len(values))`, embedded with exact rational arithmetic.  The
square root inside the correlation coefficient is irrational in general, so
it is abstracted as an oracle parameter `sqrtO`; every theorem that touches
it either holds for all oracles or instantiates it on a perfect square.
-/

/-- `np.arange n` as rationals. -/
def idxs (n : ℕ) : List ℚ := (List.range n).map (fun i => (i : ℚ))

/-- Arithmetic mean of a list (0 on the empty list, as `ℚ` division by zero
is zero — the embedded callers never take the mean of an empty list). -/
def lmean (l : List ℚ) : ℚ := l.sum / (l.length : ℚ)

/-- Sum of squared deviations from the mean. -/
def devSS (l : List ℚ) : ℚ := ((l.map (fun x => (x - lmean l) ^ 2)).sum)

/-- Sum of products of deviations from the respective means. -/
def devSP (xs ys : List ℚ) : ℚ :=
  (((xs.zip ys).map (fun p => (p.1 - lmean xs) * (p.2 - lmean ys))).sum)

/-- The slope/r pair that `scipy.stats.linregress(np.arange(n), values)`
returns (the intercept, p-value and stderr are unused by the repository). -/
structure LinregressResult where
  slope : ℚ
  rvalue : ℚ
  deriving DecidableEq, Repr

/-- `scipy.stats.linregress` against the sequence index: slope is the
deviation quotient; `r` is 0 when either sum of squares vanishes and is
otherwise clipped into [-1, 1] exactly as scipy does. -/
def linregress (sqrtO : ℚ → ℚ) (ys : List ℚ) : LinregressResult :=
  let xs := idxs ys.length
  let ssxm := devSS xs
  let ssym := devSS ys
  let ssxym := devSP xs ys
  let slope := ssxym / ssxm
  let r :=
    if ssxm = 0 ∨ ssym = 0 then 0
    else
      let r0 := ssxym / sqrtO (ssxm * ssym)
      if 1 < r0 then 1 else if r0 < -1 then -1 else r0
  ⟨slope, r⟩

/-- The ordinary-least-squares slope of value against sequence index — the
quantity named by the specification. -/
def olsSlope (ys : List ℚ) : ℚ := devSP (idxs ys.length) ys / devSS (idxs ys.length)

/-- The Pearson correlation coefficient of value against sequence index,
with scipy's guards, through the same square-root oracle. -/
def pearsonCorr (sqrtO : ℚ → ℚ) (ys : List ℚ) : ℚ :=
  let ssxm := devSS (idxs ys.length)
  let ssym := devSS ys
  if ssxm = 0 ∨ ssym = 0 then 0
  else
    let r0 := devSP (idxs ys.length) ys / sqrtO (ssxm * ssym)
    if 1 < r0 then 1 else if r0 < -1 then -1 else r0

/-- `np.polyfit(x, values, 1)` slope: the degree-one least-squares slope. -/
def polyfitSlope (ys : List ℚ) : ℚ := devSP (idxs ys.length) ys / devSS (idxs ys.length)

/-- `np.polyfit` intercept of the fitted line. -/
def polyfitIntercept (ys : List ℚ) : ℚ :=
  lmean ys - polyfitSlope ys * lmean (idxs ys.length)

/-- `_calculate_trend_strength` (`student/service.py`, lines 221–239): the
R² of the fitted line; the `ZeroDivisionError` on constant data is caught and
becomes 0.0. -/
def trendStrength (ys : List ℚ) : ℚ :=
  let slope := polyfitSlope ys
  let intercept := polyfitIntercept ys
  let yhat := (idxs ys.length).map (fun x => slope * x + intercept)
  let ybar := lmean ys
  let sstot := ((ys.map (fun y => (y - ybar) ^ 2)).sum)
  let ssres := (((ys.zip yhat).map (fun p => (p.1 - p.2) ^ 2)).sum)
  if sstot = 0 then 0 else 1 - ssres / sstot

end Regression

section StudentService
/-!
## `plAIgiarized/student/service.py` — `StudentProgressService`
-/

/-- `settings["min_essays_for_trend"]` (line 18). -/
def minEssaysForTrend : ℕ := 3

/-- `settings["metrics"]` (lines 22–28), shared with the class service. -/
def progressMetricNames : List String :=
  ["grade_level", "vocabulary_diversity", "syntax_complexity",
   "writing_style", "coherence"]

/-- The essay-loop of `set_student_baseline` (lines 36–41): a missing essay
raises `ValueError`; otherwise the call to the *nonexistent* attribute
`self.analyzer._analyze_text` (the analysis service only defines
`analyze_text`) raises `AttributeError` on the first iteration. -/
def setStudentBaselineLoop (getEssay : String → Option String) :
    List String → Except PyErr Unit
  | [] => Except.ok ()
  | essayId :: _ =>
    match getEssay essayId with
    | none => Except.error (PyErr.valueError ("Essay not found: " ++ essayId))
    | some _ => Except.error (PyErr.attributeError "_analyze_text")

/-- `set_student_baseline` (lines 31–54): the loop, then the call to the
*nonexistent* method `self._calculate_average_metrics` (defined nowhere in
the repository), with the `except` clause turning every exception into
`False`. -/
def setStudentBaseline (getEssay : String → Option String)
    (essayIds : List String) : Bool :=
  match (do
      setStudentBaselineLoop getEssay essayIds
      (Except.error (PyErr.attributeError "_calculate_average_metrics") :
        Except PyErr Bool)) with
  | Except.ok b => b
  | Except.error _ => false

/-- A historical essay record as the trend analyzers consume it: the
`"analysis"` sub-dict may be absent. -/
structure SEssay where
  analysis : Option (Dict ℚ)
  deriving DecidableEq, Repr

/-- `[essay["analysis"][m] for essay in essays if "analysis" in essay and
m in essay["analysis"]]`. -/
def trendValues (essays : List SEssay) (metric : String) : List ℚ :=
  essays.filterMap (fun e => e.analysis.bind (fun d => dlookup d metric))

/-- One metric's entry in `_analyze_trends`' output. -/
structure TrendEntry where
  slope : ℚ
  improving : Bool
  trendStrength : ℚ
  deriving DecidableEq, Repr

/-- The metric loop of `_analyze_trends` (lines 127–143):
`new_analysis[metric]` can raise `KeyError`; metrics reaching three values
get the `np.polyfit` slope and the R² trend strength. -/
def analyzeTrendsInner (prev : List SEssay) (newAnalysis : Dict ℚ) :
    Except PyErr (Dict TrendEntry) :=
  progressMetricNames.foldlM
    (fun acc metric => do
      let values := trendValues prev metric
      let nv ← dget newAnalysis metric
      let values := values ++ [nv]
      if minEssaysForTrend ≤ values.length then
        let slope := polyfitSlope values
        Except.ok (acc ++
          [(metric, TrendEntry.mk slope (decide (0 < slope)) (trendStrength values))])
      else Except.ok acc)
    []

/-- Output of `_analyze_trends`: the `{"sufficient_data": False}` marker or
the metric trends under `{"sufficient_data": True, "metrics": ...}`. -/
inductive TrendsResult where
  | insufficientData
  | sufficient (metrics : Dict TrendEntry)
  deriving DecidableEq, Repr

/-- `_analyze_trends` (lines 121–149): fewer than
`min_essays_for_trend` previous essays yield the insufficient-data marker;
the `except` clause maps any exception to the same marker. -/
def analyzeTrends (prev : List SEssay) (newAnalysis : Dict ℚ) : TrendsResult :=
  if prev.length < minEssaysForTrend then TrendsResult.insufficientData
  else
    match analyzeTrendsInner prev newAnalysis with
    | Except.error _ => TrendsResult.insufficientData
    | Except.ok ts => TrendsResult.sufficient ts

end StudentService

section ClassService
/-!
## `plAIgiarized/class/service.py` — `ClassProgressService`
-/

/-- `settings["min_students"]` (line 19). -/
def minStudents : ℕ := 5

/-- `settings["metrics"]` of the class service (lines 23–29) — the same five
names as the student service. -/
def classMetricNames : List String := progressMetricNames

/-- `_calculate_student_trend` (lines 292–306): for every configured metric
carried by at least three essays, store `slope * r_value` from
`stats.linregress` against the sequence index.  The `try` body cannot raise
(the metric extraction is membership-guarded), so the `except` branch is
dead. -/
def calcStudentTrend (sqrtO : ℚ → ℚ) (essays : List SEssay) : Dict ℚ :=
  classMetricNames.foldl
    (fun acc metric =>
      let values := trendValues essays metric
      if 3 ≤ values.length then
        let lr := linregress sqrtO values
        acc ++ [(metric, lr.slope * lr.rvalue)]
      else acc)
    []

/-- Outcome of `analyze_class_progress`: `None` (any exception, including a
missing class), the insufficient-students error dict, or a full analysis. -/
inductive ClassAnalysisResult (α : Type) where
  | noneResult
  | errorDict (msg : String)
  | analysis (a : α)
  deriving DecidableEq, Repr

/-- `analyze_class_progress` (lines 33–71): a missing class raises
`ValueError` (caught, `None`); fewer than `min_students` students return the
error dict *before any statistics are computed*; otherwise the per-student
analysis and aggregation (lines 46–67, abstracted as `restAnalysis` since the
claims only concern the guard) run inside the same `try`. -/
def analyzeClassProgress {α : Type} (getClass : String → Option String)
    (getStudents : String → List String)
    (restAnalysis : List String → Except PyErr α) (classId : String) :
    ClassAnalysisResult α :=
  match getClass classId with
  | none => ClassAnalysisResult.noneResult
  | some _ =>
    let students := getStudents classId
    if students.length < minStudents then
      ClassAnalysisResult.errorDict "Insufficient students for reliable analysis"
    else
      match restAnalysis students with
      | Except.error _ => ClassAnalysisResult.noneResult
      | Except.ok a => ClassAnalysisResult.analysis a

end ClassService

section WitnessInputs
/-!
## Concrete inputs used by the witness theorems
-/

/-- Stand-in for the helper methods whose bodies are absent from the source:
in the shipped repository each such attribute access raises
`AttributeError`. -/
def missingHelper : String → Except PyErr ℚ :=
  fun _ => Except.error (PyErr.attributeError "helper absent from source")

/-- Stand-in for the missing `_calculate_similarity` — never reached,
because the realism evaluation raises first. -/
def similarityStub : Dict ℚ → Dict ℚ → Except PyErr ℚ :=
  fun _ _ => Except.ok 0

/-- A square-root oracle adequate for the witness data, where the product of
the sums of squares is the perfect square 4. -/
def c8SqrtOracle : ℚ → ℚ := fun q => if q = 4 then 2 else 0

/-- Three essays whose `grade_level` values 0, 2, 1 give OLS slope 1/2 and
correlation 1/2, so the stored trend is 1/4 — distinct from the raw
slope. -/
def c8Essays : List SEssay :=
  [⟨some [("grade_level", 0)]⟩, ⟨some [("grade_level", 2)]⟩,
   ⟨some [("grade_level", 1)]⟩]

end WitnessInputs

section Lemmas
/-!
## Supporting lemmas
-/

theorem dlookup_append_of_some {α : Type} {l1 : Dict α} (l2 : Dict α) {k : String}
    {v : α} (h : dlookup l1 k = some v) : dlookup (l1 ++ l2) k = some v := by
  induction l1 with
  | nil => simp [dlookup] at h
  | cons kv rest ih =>
    obtain ⟨k1, v1⟩ := kv
    by_cases hk : k1 = k
    · simp [dlookup, hk] at h ⊢
      exact h
    · simp [dlookup, hk] at h ⊢
      exact ih h

theorem dlookup_append_of_none {α : Type} {l1 : Dict α} (l2 : Dict α) {k : String}
    (h : dlookup l1 k = none) : dlookup (l1 ++ l2) k = dlookup l2 k := by
  induction l1 with
  | nil => rfl
  | cons kv rest ih =>
    obtain ⟨k1, v1⟩ := kv
    by_cases hk : k1 = k
    · simp [dlookup, hk] at h
    · simp [dlookup, hk] at h ⊢
      exact ih h

theorem extractStyleMetricsInner_keys {pf gf sf : String → Except PyErr ℚ}
    {content : String} {d : Dict ℚ}
    (h : extractStyleMetricsInner pf gf sf content = Except.ok d) :
    dkeys d = ["percentile", "grade_level", "vocab", "complexity", "style"] := by
  unfold extractStyleMetricsInner at h
  cases hp : pf content with
  | error e => rw [hp] at h; simp [Bind.bind, Except.bind] at h
  | ok p =>
    rw [hp] at h
    cases hg : gf content with
    | error e => rw [hg] at h; simp [Bind.bind, Except.bind] at h
    | ok g =>
      rw [hg] at h
      by_cases hs : (sentenceSegs content).length = 0
      · simp [Bind.bind, Except.bind, hs] at h
      · simp [Bind.bind, Except.bind, hs] at h
        cases hst : sf content with
        | error e => rw [hst] at h; simp [Except.bind] at h
        | ok st =>
          rw [hst] at h
          simp [Except.bind, Pure.pure, Except.pure] at h
          subst h
          rfl

theorem extractStyleMetrics_keys (pf gf sf : String → Except PyErr ℚ)
    (content : String) :
    dkeys (extractStyleMetrics pf gf sf content) =
      ["percentile", "grade_level", "vocab", "complexity", "style"] := by
  unfold extractStyleMetrics
  cases h : extractStyleMetricsInner pf gf sf content with
  | error e => rfl
  | ok d => exact extractStyleMetricsInner_keys h

theorem calcImprovements_keys {baseline submitted : Dict ℚ} {t : ℚ} {imps : Dict ℚ}
    (h : calcImprovements baseline submitted t = Except.ok imps) :
    ∀ kv ∈ imps, ∃ m ∈ dkeys baseline, kv.1 = m ++ "_change" := by
  induction baseline generalizing imps with
  | nil =>
    simp [calcImprovements] at h
    subst h
    intro kv hkv
    simp at hkv
  | cons kv0 rest ih =>
    obtain ⟨m, bv⟩ := kv0
    unfold calcImprovements at h
    by_cases hbv : 0 < bv
    · rw [if_pos hbv] at h
      cases hsub : dlookup submitted m with
      | none => rw [hsub] at h; simp at h
      | some sv =>
        rw [hsub] at h
        cases hrest : calcImprovements rest submitted t with
        | error e => rw [hrest] at h; simp at h
        | ok imps0 =>
          rw [hrest] at h
          simp at h
          subst h
          intro kv hkv
          rcases List.mem_cons.mp hkv with hkv | hkv
          · exact ⟨m, by simp [dkeys], by rw [hkv]⟩
          · obtain ⟨m', hm', he⟩ := ih hrest kv hkv
            exact ⟨m', by simp [dkeys] at hm' ⊢; exact Or.inr hm', he⟩
    · rw [if_neg hbv] at h
      intro kv hkv
      obtain ⟨m', hm', he⟩ := ih h kv hkv
      exact ⟨m', by simp [dkeys] at hm' ⊢; exact Or.inr hm', he⟩

theorem suspicious_lookup_none {m : String}
    (h : m ∈ ["percentile", "grade_level", "vocab", "complexity", "style"]) :
    dlookup suspiciousThresholds (removeChange (m ++ "_change")) = none := by
  simp at h
  rcases h with h | h | h | h | h <;> subst h <;> decide

theorem evaluateImprovementRealism_err (imps : Dict ℚ)
    (h : ∀ kv ∈ imps, dlookup suspiciousThresholds (removeChange kv.1) = none) :
    ∃ e, evaluateImprovementRealism imps = Except.error e := by
  cases imps with
  | nil => exact ⟨PyErr.zeroDivisionError, rfl⟩
  | cons kv rest =>
    obtain ⟨k, v⟩ := kv
    have hk := h (k, v) (List.mem_cons_self _ _)
    refine ⟨PyErr.keyError (removeChange k), ?_⟩
    simp [evaluateImprovementRealism, realismLoop, hk]

theorem compareEssaysInner_errors (pf gf sf : String → Except PyErr ℚ)
    (simF : Dict ℚ → Dict ℚ → Except PyErr ℚ) (baseline submitted : Essay) :
    ∃ e, compareEssaysInner pf gf sf simF baseline submitted = Except.error e := by
  unfold compareEssaysInner
  cases hci : calcImprovements (extractStyleMetrics pf gf sf baseline.content)
      (extractStyleMetrics pf gf sf submitted.content)
      (((submitted.createdAtDays - baseline.createdAtDays : ℤ) : ℚ) / 365) with
  | error e =>
    refine ⟨e, ?_⟩
    simp only [Bind.bind, Except.bind]
    rw [hci]
  | ok imps =>
    have hkeys := calcImprovements_keys hci
    have herr : ∃ e, evaluateImprovementRealism imps = Except.error e := by
      apply evaluateImprovementRealism_err
      intro kv hkv
      obtain ⟨m, hm, he⟩ := hkeys kv hkv
      rw [extractStyleMetrics_keys] at hm
      rw [he]
      exact suspicious_lookup_none hm
    obtain ⟨e, he⟩ := herr
    refine ⟨e, ?_⟩
    simp only [Bind.bind, Except.bind]
    rw [hci]
    dsimp only
    rw [he]

theorem compareEssays_always_fallback (pf gf sf : String → Except PyErr ℚ)
    (simF : Dict ℚ → Dict ℚ → Except PyErr ℚ) (baseline submitted : Essay) :
    compareEssays pf gf sf simF baseline submitted =
      ⟨3/4, 1/4, none⟩ := by
  obtain ⟨e, he⟩ := compareEssaysInner_errors pf gf sf simF baseline submitted
  simp [compareEssays, he]

theorem ratFloorZ_eq_floor (q : ℚ) : ratFloorZ q = ⌊q⌋ := Rat.floor_def.symm

theorem roundHalfEven_le {x : ℚ} {lo hi : ℤ} (hlo : (lo : ℚ) ≤ x)
    (hhi : x ≤ (hi : ℚ)) : lo ≤ roundHalfEven x ∧ roundHalfEven x ≤ hi := by
  unfold roundHalfEven
  rw [ratFloorZ_eq_floor]
  have hfl : lo ≤ ⌊x⌋ := Int.le_floor.mpr hlo
  have hfh : ⌊x⌋ ≤ hi := by
    have h := Int.floor_le_floor hhi
    simpa using h
  have hx : (⌊x⌋ : ℚ) ≤ x := Int.floor_le x
  have hitop : ⌊x⌋ = hi → x - ⌊x⌋ = 0 := by
    intro h
    have hxhi : (hi : ℚ) ≤ x := by rw [← h]; exact hx
    have hxe : x = (hi : ℚ) := le_antisymm hhi hxhi
    rw [hxe]
    simp
  by_cases h1 : x - ⌊x⌋ < 1/2
  · rw [if_pos h1]
    exact ⟨hfl, hfh⟩
  · rw [if_neg h1]
    have hlt : ⌊x⌋ < hi := by
      rcases lt_or_eq_of_le hfh with h | h
      · exact h
      · exfalso
        have h0 := hitop h
        rw [h0] at h1
        norm_num at h1
    by_cases h2 : (1 : ℚ)/2 < x - ⌊x⌋
    · rw [if_pos h2]
      omega
    · rw [if_neg h2]
      by_cases h3 : ⌊x⌋ % 2 = 0
      · rw [if_pos h3]
        exact ⟨hfl, hfh⟩
      · rw [if_neg h3]
        omega

theorem pyRound_mem_Icc {q : ℚ} {lo hi : ℤ} (hlo : (lo : ℚ) ≤ q)
    (hhi : q ≤ (hi : ℚ)) (nd : ℕ) :
    (lo : ℚ) ≤ pyRound nd q ∧ pyRound nd q ≤ (hi : ℚ) := by
  unfold pyRound
  have hp : (0 : ℚ) < (10 : ℚ) ^ nd := by positivity
  have h1 : ((lo * 10 ^ nd : ℤ) : ℚ) ≤ q * 10 ^ nd := by
    push_cast
    exact mul_le_mul_of_nonneg_right hlo (le_of_lt hp)
  have h2 : q * 10 ^ nd ≤ ((hi * 10 ^ nd : ℤ) : ℚ) := by
    push_cast
    exact mul_le_mul_of_nonneg_right hhi (le_of_lt hp)
  obtain ⟨hl, hu⟩ := roundHalfEven_le h1 h2
  constructor
  · rw [le_div_iff₀ hp]
    calc (lo : ℚ) * 10 ^ nd = ((lo * 10 ^ nd : ℤ) : ℚ) := by push_cast; ring
    _ ≤ (roundHalfEven (q * 10 ^ nd) : ℚ) := by exact_mod_cast hl
  · rw [div_le_iff₀ hp]
    have hc : (roundHalfEven (q * 10 ^ nd) : ℚ) ≤ ((hi * 10 ^ nd : ℤ) : ℚ) := by
      exact_mod_cast hu
    calc (roundHalfEven (q * 10 ^ nd) : ℚ) ≤ ((hi * 10 ^ nd : ℤ) : ℚ) := hc
    _ = (hi : ℚ) * 10 ^ nd := by push_cast; ring

theorem dlookup_foldl_preserve {α : Type} (p : String → Prop) [DecidablePred p]
    (g : String → α) (names : List String) {acc : Dict α} {m : String} {v : α}
    (h : dlookup acc m = some v) :
    dlookup (names.foldl (fun a n => if p n then a ++ [(n, g n)] else a) acc) m =
      some v := by
  induction names generalizing acc with
  | nil => exact h
  | cons n rest ih =>
    simp only [List.foldl]
    by_cases hp : p n
    · rw [if_pos hp]
      exact ih (dlookup_append_of_some _ h)
    · rw [if_neg hp]
      exact ih h

theorem dlookup_foldl_mem {α : Type} (p : String → Prop) [DecidablePred p]
    (g : String → α) (names : List String) {acc : Dict α} {m : String}
    (hmem : m ∈ names) (hp : p m) (hacc : dlookup acc m = none) :
    dlookup (names.foldl (fun a n => if p n then a ++ [(n, g n)] else a) acc) m =
      some (g m) := by
  induction names generalizing acc with
  | nil => simp at hmem
  | cons n rest ih =>
    simp only [List.foldl]
    by_cases hn : n = m
    · subst hn
      rw [if_pos hp]
      apply dlookup_foldl_preserve
      rw [dlookup_append_of_none _ hacc]
      simp [dlookup]
    · have hmem2 : m ∈ rest := by
        rcases List.mem_cons.mp hmem with h | h
        · exact absurd h.symm hn
        · exact h
      by_cases hpn : p n
      · rw [if_pos hpn]
        apply ih hmem2
        rw [dlookup_append_of_none _ hacc]
        simp [dlookup, hn]
      · rw [if_neg hpn]
        exact ih hmem2 hacc

end Lemmas

section Claims
/-!
## The claims

Each specification claim is settled by one theorem below, together with a
counterexample theorem where the claim fails on the code and a witness
theorem instantiating the hypotheses of the main theorem on concrete
inputs.
-/

/-- C1: the claim describes the intended scoring of
`_evaluate_improvement_realism` — contribution 1.0 above `suspicious`, 0.5
above `high`, else 0, averaged into [0,1].  The code cannot perform it: the
improvement dict built by `_calculate_improvements` carries keys such as
`vocab_change`, the lookup strips `_change` to `vocab`, and the threshold
tables are keyed `vocab_growth` / `complexity_growth` / `style_improvement` /
`percentile_change` / `grade_level_change`, so the very first metric raises
`KeyError` and no score is ever computed.  This theorem evaluates the
embedded code at the failing input. -/
theorem c1_realism_scoring_always_keyerror :
    evaluateImprovementRealism [("vocab_change", 40)] =
      Except.error (PyErr.keyError "vocab") := by rfl

/-- C2 (counterexample): with zero available metrics the classifier does not
return suspicion score 0 (with or without a flag) — it raises
`ZeroDivisionError` on `suspicious_count / total_metrics`. -/
theorem c2_zero_metrics_no_score_returned :
    evaluateImprovementRealism [] ≠ Except.ok 0 := by
  simp [evaluateImprovementRealism, realismLoop]

/-- C2 (amended): for every empty improvement map,
`_evaluate_improvement_realism` raises `ZeroDivisionError` instead of
returning `suspicion_score = 0` with an `insufficient_metrics` flag; the
exception is then caught by `compare_essays`, whose fixed fallback carries
`ai_probability = 0.25` and no flags at all. -/
theorem c2_zero_metrics_zero_division (improvements : Dict ℚ)
    (h : improvements = []) :
    evaluateImprovementRealism improvements =
      Except.error PyErr.zeroDivisionError := by
  subst h
  rfl

/-- C2 (witness): the amended theorem applied at the empty map. -/
theorem c2_zero_metrics_zero_division_witness :
    evaluateImprovementRealism [] = Except.error PyErr.zeroDivisionError :=
  c2_zero_metrics_zero_division [] rfl

/-- C3 (counterexample): a same-day pair (elapsed time 0) is *not* rejected:
`_calculate_improvements` keeps the record, storing the raw relative change
`(9 - 8)/8 × 100 = 12.5` without any division by the elapsed time, and no
`DegenerateTimeSpan` condition exists anywhere in the code. -/
theorem c3_same_day_record_kept :
    calcImprovements [("grade_level", 8)] [("grade_level", 9)] 0 =
      Except.ok [("grade_level_change", 25/2)] := by
  simp [calcImprovements, dlookup]
  norm_num

/-- C3 (amended): no `DegenerateTimeSpan` rejection exists.  In the detection
service, a non-positive elapsed time merely skips the yearly normalization —
the result is the same for every non-positive time span, i.e. the raw
relative change is kept.  In the progress service,
`_calculate_overall_improvement` performs the division regardless and raises
`ZeroDivisionError` when the first and last essay share a day (its caller
swallows the exception into an empty result). -/
theorem c3_no_degenerate_timespan_rejection :
    (∀ (b s : Dict ℚ) (t t2 : ℚ), t ≤ 0 → t2 ≤ 0 →
        calcImprovements b s t = calcImprovements b s t2) ∧
      (∀ (e1 e2 : PEssay) (g1 g2 : ℚ), e1.createdAtDays = e2.createdAtDays →
        dlookup e2.metrics "grade_level" = some g2 →
        dlookup e1.metrics "grade_level" = some g1 →
        calcOverallImprovement [e1, e2] =
          Except.error PyErr.zeroDivisionError) := by
  constructor
  · intro b s t t2 ht ht2
    induction b with
    | nil => rfl
    | cons kv rest ih =>
      obtain ⟨m, bv⟩ := kv
      unfold calcImprovements
      by_cases hbv : 0 < bv
      · rw [if_pos hbv, if_pos hbv]
        cases dlookup s m with
        | none => rfl
        | some sv =>
          simp only [if_neg (not_lt.mpr ht), if_neg (not_lt.mpr ht2)]
          rw [ih]
      · rw [if_neg hbv, if_neg hbv]
        exact ih
  · intro e1 e2 g1 g2 hd h2 h1
    unfold calcOverallImprovement
    rw [if_neg (by simp)]
    simp only [List.getLast?, List.getLast]
    simp only [Bind.bind, Except.bind, dget, h1, h2, hd]
    simp [pyDiv]

/-- C3 (witness): the amended theorem applied at a same-day pair in both
services. -/
theorem c3_no_degenerate_timespan_rejection_witness :
    (calcImprovements [("grade_level", 8)] [("grade_level", 9)] 0 =
        calcImprovements [("grade_level", 8)] [("grade_level", 9)] (-1)) ∧
      calcOverallImprovement
          [⟨5, [("grade_level", 8)]⟩, ⟨5, [("grade_level", 9)]⟩] =
        Except.error PyErr.zeroDivisionError :=
  ⟨c3_no_degenerate_timespan_rejection.1 _ _ 0 (-1) (by norm_num) (by norm_num),
    c3_no_degenerate_timespan_rejection.2 ⟨5, [("grade_level", 8)]⟩
      ⟨5, [("grade_level", 9)]⟩ 8 9 rfl rfl rfl⟩

/-- C4 (counterexample): with a positive elapsed time of one year, the
detection service normalizes `grade_level` like every other metric — the
yearly rate stored for a baseline of 8.0 and a submission of 9.0 is the
percentage `(9-8)/8 × 100 = 12.5`, not the absolute change `9 - 8 = 1`
claimed for `grade_level`. -/
theorem c4_grade_level_percentage_normalized :
    calcImprovements [("grade_level", 8)] [("grade_level", 9)] 1 =
        Except.ok [("grade_level_change", 25/2)] ∧
      (25/2 : ℚ) ≠ (9 - 8) / 1 := by
  constructor
  · simp [calcImprovements, dlookup]
    norm_num
  · norm_num

/-- C4 (amended): the claimed per-metric formulas hold of the *progress*
service — `writing_level` (grade level) uses `absolute_change / elapsed` and
the other metrics use `relative_change × 100 / elapsed` — while the
*detection* service applies the `relative × 100 / elapsed` formula to every
metric, `grade_level` included. -/
theorem c4_yearly_rate_formulas :
    (∀ (bv sv t : ℚ), 0 < bv → 0 < t →
        calcImprovements [("grade_level", bv)] [("grade_level", sv)] t =
          Except.ok [("grade_level_change", (sv - bv) / bv * 100 / t)]) ∧
      (∀ (e1 e2 : PEssay) (gl1 gl2 vs1 vs2 sc1 sc2 sf1 sf2 ts : ℚ),
        ((e2.createdAtDays - e1.createdAtDays : ℤ) : ℚ) / 365 = ts → ts ≠ 0 →
        dlookup e1.metrics "grade_level" = some gl1 →
        dlookup e2.metrics "grade_level" = some gl2 →
        dlookup e1.metrics "vocabulary_size" = some vs1 →
        dlookup e2.metrics "vocabulary_size" = some vs2 →
        dlookup e1.metrics "sentence_complexity" = some sc1 →
        dlookup e2.metrics "sentence_complexity" = some sc2 →
        dlookup e1.metrics "style_fingerprint" = some sf1 →
        dlookup e2.metrics "style_fingerprint" = some sf2 →
        vs1 ≠ 0 → sc1 ≠ 0 → sf1 ≠ 0 →
        calcOverallImprovement [e1, e2] =
          Except.ok [("writing_level", (gl2 - gl1) / ts),
            ("vocabulary", (vs2 - vs1) / vs1 * 100 / ts),
            ("complexity", (sc2 - sc1) / sc1 * 100 / ts),
            ("style", (sf2 - sf1) / sf1 * 100 / ts)]) := by
  constructor
  · intro bv sv t hbv ht
    simp [calcImprovements, dlookup, if_pos hbv, if_pos ht]
  · intro e1 e2 gl1 gl2 vs1 vs2 sc1 sc2 sf1 sf2 ts hts htsne
    intro h1 h2 h3 h4 h5 h6 h7 h8 hvs hsc hsf
    unfold calcOverallImprovement
    rw [if_neg (by simp)]
    simp only [List.getLast?, List.getLast]
    rw [hts]
    simp only [Bind.bind, Except.bind, dget, h1, h2, h3, h4, h5, h6, h7, h8]
    simp [pyDiv, htsne, hvs, hsc, hsf]

/-- C4 (witness): the amended theorem applied to concrete essays one year
apart. -/
theorem c4_yearly_rate_formulas_witness :
    (calcImprovements [("grade_level", 8)] [("grade_level", 9)] 2 =
        Except.ok [("grade_level_change", (9 - 8) / 8 * 100 / 2)]) ∧
      calcOverallImprovement
          [⟨0, [("grade_level", 8), ("vocabulary_size", 500),
            ("sentence_complexity", 2), ("style_fingerprint", 5)]⟩,
           ⟨365, [("grade_level", 9), ("vocabulary_size", 550),
            ("sentence_complexity", 3), ("style_fingerprint", 6)]⟩] =
        Except.ok [("writing_level", (9 - 8) / 1),
          ("vocabulary", (550 - 500) / 500 * 100 / 1),
          ("complexity", (3 - 2) / 2 * 100 / 1),
          ("style", (6 - 5) / 5 * 100 / 1)] :=
  ⟨c4_yearly_rate_formulas.1 8 9 2 (by norm_num) (by norm_num),
    c4_yearly_rate_formulas.2
      ⟨0, [("grade_level", 8), ("vocabulary_size", 500),
        ("sentence_complexity", 2), ("style_fingerprint", 5)]⟩
      ⟨365, [("grade_level", 9), ("vocabulary_size", 550),
        ("sentence_complexity", 3), ("style_fingerprint", 6)]⟩
      8 9 500 550 2 3 5 6 1 (by norm_num) (by norm_num)
      rfl rfl rfl rfl rfl rfl rfl rfl
      (by norm_num) (by norm_num) (by norm_num)⟩

/-- C5 (counterexample): a 11-character text is below the 100-character
minimum, yet no `ValidationError` propagates to the caller — `analyze_text`
catches its own internally raised `ValueError` and hands back the dict
`{"error": "Invalid content length"}` as an ordinary return value. -/
theorem c5_out_of_bounds_returns_error_dict :
    analyzeText (fun _ => (0 : ℚ)) "short essay" =
      AnalyzeOutcome.errorDict "Invalid content length" := by rfl

/-- C5 (amended): text whose stripped length in characters lies outside
[100, 10000] (both bounds compare character counts — the `max_words = 10000`
setting is applied to characters, not words) makes `analyze_text` return the
`{"error": "Invalid content length"}` dict produced by its own `except`
clause; nothing propagates.  In-bounds text passes validation and the four
sub-analyses run. -/
theorem c5_validation_error_swallowed {α : Type} (sub : String → α)
    (text : String) :
    analyzeText sub text =
      (if 100 ≤ (pyStrip text).length ∧ (pyStrip text).length ≤ 10000 then
        AnalyzeOutcome.ok (sub text)
      else AnalyzeOutcome.errorDict "Invalid content length") := by
  unfold analyzeText analyzeTextInner validateContent analysisMinWords analysisMaxWords
  by_cases h : 100 ≤ (pyStrip text).length ∧ (pyStrip text).length ≤ 10000
  · rw [if_pos h, if_pos (by exact_mod_cast decide_eq_true_eq.mpr h)]
  · rw [if_neg h, if_neg ?_]
    · rfl
    · simpa using h

/-- C6 (counterexample): `_analyze_readability` does not clamp: on the
single word and single sentence `"a"` it returns
`grade_level = 0.39 + 11.8 - 15.59 = -3.4`, outside [0, 12]. -/
theorem c6_unclamped_negative_grade_level :
    dlookup (analyzeReadability ["a"] ["a"]) "grade_level" = some (-17/5) ∧
      ¬ (0 : ℚ) ≤ -17/5 := by
  constructor
  · simp [analyzeReadability, calcAvgSyllables, pyIsAlnum, vowelRunStarts,
      isVowelNoY, pyRound, roundHalfEven, ratFloorZ, dlookup]
    norm_num
  · norm_num

/-- C6 (amended): neither readability routine raises an exception, but the
degenerate-input behaviour is not the claimed `avg_sentence_length = 0`:
with no words or no sentences `_calculate_readability` returns the
`{"error": "No content to analyze"}` marker and `_analyze_readability`
returns zeros; `_calculate_readability` clamps its grade level into [0, 12],
while `_analyze_readability` does not clamp at all (see the
counterexample). -/
theorem c6_readability_guards_and_clamp :
    (∀ words sentences : List String, words = [] ∨ sentences = [] →
        calcReadability words sentences =
            ReadabilityResult.errorDict "No content to analyze" ∧
          analyzeReadability words sentences =
            [("score", 0), ("grade_level", 0)]) ∧
      (∀ (words sentences : List String) (gl asw awps : ℚ),
        calcReadability words sentences = ReadabilityResult.ok gl asw awps →
          0 ≤ gl ∧ gl ≤ 12) := by
  constructor
  · intro words sentences h
    constructor
    · simp [calcReadability, if_pos h]
    · simp [analyzeReadability, if_pos h]
  · intro words sentences gl asw awps h
    unfold calcReadability at h
    by_cases he : words = [] ∨ sentences = []
    · rw [if_pos he] at h
      simp at h
    · rw [if_neg he] at h
      injection h with h1 h2 h3
      subst h1
      have h0 : ((0 : ℤ) : ℚ) ≤
          max 0 (min (39/100 * ((words.length : ℚ) / (sentences.length : ℚ)) +
            59/5 * ((((words.map countSyllables).sum : ℤ) : ℚ) /
              (words.length : ℚ)) - 1559/100) 12) := by
        push_cast
        exact le_max_left _ _
      have h12 : max 0 (min (39/100 * ((words.length : ℚ) /
            (sentences.length : ℚ)) +
            59/5 * ((((words.map countSyllables).sum : ℤ) : ℚ) /
              (words.length : ℚ)) - 1559/100) 12) ≤ ((12 : ℤ) : ℚ) := by
        push_cast
        exact max_le (by norm_num) (min_le_right _ _)
      have hb := pyRound_mem_Icc h0 h12 1
      constructor
      · exact le_trans (by norm_num) hb.1
      · exact le_trans hb.2 (by norm_num)

/-- C6 (witness): the amended theorem applied at a degenerate input (no
words) and at the one-word text `"a"`, whose clamped grade level is 0. -/
theorem c6_readability_guards_and_clamp_witness :
    (calcReadability [] ["x"] =
        ReadabilityResult.errorDict "No content to analyze") ∧
      (analyzeReadability [] ["x"] = [("score", 0), ("grade_level", 0)]) ∧
      (0 ≤ (0 : ℚ) ∧ (0 : ℚ) ≤ 12) :=
  ⟨(c6_readability_guards_and_clamp.1 [] ["x"] (Or.inl rfl)).1,
    (c6_readability_guards_and_clamp.1 [] ["x"] (Or.inl rfl)).2,
    c6_readability_guards_and_clamp.2 ["a"] ["a"] 0 1 1 (by
      simp [calcReadability, countSyllables, stripDigits, vowelRunStarts,
        isVowelY, pyRound, roundHalfEven, ratFloorZ]
      norm_num)⟩

/-- C7: the claim describes the intended baseline construction — an
element-wise, order-independent mean of the supplied essays.  The code can
never compute it: `set_student_baseline` calls `self.analyzer._analyze_text`
(the analysis service defines only `analyze_text`) and
`self._calculate_average_metrics` (defined nowhere), so an `AttributeError`
is raised on every input, caught, and turned into `False` — no baseline
metrics are ever produced, for any essay list or ordering. -/
theorem c7_set_student_baseline_always_false
    (getEssay : String → Option String) (essayIds : List String) :
    setStudentBaseline getEssay essayIds = false := by
  unfold setStudentBaseline
  cases essayIds with
  | nil => rfl
  | cons e rest =>
    simp only [setStudentBaselineLoop, Bind.bind, Except.bind]
    cases getEssay e <;> rfl

/-- C8: in the class service, every configured metric carried by at least
three essays gets stored trend value `slope × r` — the ordinary
least-squares slope against the sequence index times the correlation
coefficient (square roots abstracted by the oracle `sqrtO`, with scipy's
zero-variance guard and [-1,1] clip) — and in the student service, fewer
than three previous essays make `_analyze_trends` return the
`{"sufficient_data": False}` marker rather than raise. -/
theorem c8_trend_slope_times_r_and_marker :
    (∀ (sqrtO : ℚ → ℚ) (essays : List SEssay) (metric : String),
        metric ∈ classMetricNames → 3 ≤ (trendValues essays metric).length →
        dlookup (calcStudentTrend sqrtO essays) metric =
          some (olsSlope (trendValues essays metric) *
            pearsonCorr sqrtO (trendValues essays metric))) ∧
      (∀ (prev : List SEssay) (newAnalysis : Dict ℚ),
        prev.length < minEssaysForTrend →
        analyzeTrends prev newAnalysis = TrendsResult.insufficientData) := by
  constructor
  · intro sqrtO essays metric hmem hlen
    have key := dlookup_foldl_mem
      (p := fun n => 3 ≤ (trendValues essays n).length)
      (g := fun n => (linregress sqrtO (trendValues essays n)).slope *
        (linregress sqrtO (trendValues essays n)).rvalue)
      classMetricNames hmem hlen
      (show dlookup ([] : Dict ℚ) metric = none from rfl)
    exact key
  · intro prev newAnalysis h
    simp [analyzeTrends, h]

/-- C8 (witness): the theorem applied to the three concrete essays above and
to a two-essay history for the insufficient-data half. -/
theorem c8_trend_slope_times_r_and_marker_witness :
    (dlookup (calcStudentTrend c8SqrtOracle c8Essays) "grade_level" =
        some (olsSlope (trendValues c8Essays "grade_level") *
          pearsonCorr c8SqrtOracle (trendValues c8Essays "grade_level"))) ∧
      analyzeTrends [⟨some [("grade_level", 1)]⟩, ⟨some [("grade_level", 2)]⟩]
          [("grade_level", 3)] = TrendsResult.insufficientData :=
  ⟨c8_trend_slope_times_r_and_marker.1 c8SqrtOracle c8Essays "grade_level"
      (by decide) (by decide),
    c8_trend_slope_times_r_and_marker.2 _ _ (by decide)⟩

/-- C9 (counterexample): a cohort of four students (below the configured
minimum of five) makes `analyze_class_progress` return *only*
`{"error": "Insufficient students for reliable analysis"}` — no per-metric
descriptive statistics are computed or returned, contradicting the claimed
partial aggregation, and no marker named `insufficient_cohort` exists. -/
theorem c9_four_students_no_statistics :
    analyzeClassProgress (fun _ => some "class-1")
        (fun _ => ["s1", "s2", "s3", "s4"])
        (fun _ => Except.ok ([] : Dict ℚ)) "class-1" =
      ClassAnalysisResult.errorDict
        "Insufficient students for reliable analysis" := by rfl

/-- C9 (amended): for every class that exists and has fewer students than
the configured minimum (5), `analyze_class_progress` stops at the guard and
returns only the insufficient-students error dict; the per-student analysis
and aggregation never run, so no descriptive statistics accompany the
marker. -/
theorem c9_insufficient_students_error_only {α : Type}
    (getClass : String → Option String) (getStudents : String → List String)
    (restAnalysis : List String → Except PyErr α) (classId : String)
    (hc : getClass classId ≠ none)
    (hn : (getStudents classId).length < minStudents) :
    analyzeClassProgress getClass getStudents restAnalysis classId =
      ClassAnalysisResult.errorDict
        "Insufficient students for reliable analysis" := by
  unfold analyzeClassProgress
  cases h : getClass classId with
  | none => exact absurd h hc
  | some c => simp [hn]

/-- C9 (witness): the amended theorem applied to a three-student class. -/
theorem c9_insufficient_students_error_only_witness :
    analyzeClassProgress (fun _ => some "c") (fun _ => ["a", "b", "c"])
        (fun _ => Except.ok (0 : ℚ)) "c" =
      ClassAnalysisResult.errorDict
        "Insufficient students for reliable analysis" :=
  c9_insufficient_students_error_only _ _ _ "c" (by simp) (by decide)

/-- C10: whenever any internal step of `compare_essays` raises — which the
`try` body does on every input, since the realism evaluation always raises
`KeyError` (non-empty improvements) or `ZeroDivisionError` (empty
improvements) — the exception never propagates: the `except` clause returns
exactly `{"similarity_score": 0.75, "ai_probability": 0.25}`, a fixed
non-zero suspicion answer produced without computed evidence.  Quantified
over all behaviours of the helper methods missing from the source file. -/
theorem c10_compare_essays_fixed_fallback (pf gf sf : String → Except PyErr ℚ)
    (simF : Dict ℚ → Dict ℚ → Except PyErr ℚ) (baseline submitted : Essay)
    (h : ∃ e, compareEssaysInner pf gf sf simF baseline submitted =
      Except.error e) :
    compareEssays pf gf sf simF baseline submitted =
      { similarityScore := 3/4, aiProbability := 1/4, improvements := none } := by
  obtain ⟨e, he⟩ := h
  simp [compareEssays, he]

/-- C10 (witness): the theorem applied to two concrete essays; the internal
exception is the realism evaluator's `KeyError` on `"percentile"`. -/
theorem c10_compare_essays_fixed_fallback_witness :
    compareEssays missingHelper missingHelper missingHelper similarityStub
        ⟨"", 0⟩ ⟨"", 0⟩ =
      { similarityScore := 3/4, aiProbability := 1/4, improvements := none } :=
  c10_compare_essays_fixed_fallback missingHelper missingHelper missingHelper
    similarityStub ⟨"", 0⟩ ⟨"", 0⟩ ⟨PyErr.keyError "percentile", by rfl⟩

end Claims

end PlAIgiarized
